import Mathlib

/-!
Verification development for the OceanOptics spectrometer driver
(`OceanOptics/_devices.py`).  The driver exposes two device classes:
`USB2000` (legacy single-byte-opcode protocol) and `STS` (framed 64-byte
protocol).  We embed the protocol decoding, the initialization sequence,
the integration-time handling and the calibration arithmetic as pure
Lean functions, with device/transport responses supplied explicitly as
arguments (the Python code obtains them from blocking USB reads).

Floating point arithmetic is modelled over `ℚ`; machine bytes are `ℕ`
(values 0..255), 16-bit signed samples are `ℤ`.
-/

/-- Errors raised by the driver.  The Python code raises `OceanOpticsError`
with distinct message strings (and, in one place, an uncaught Python
`AttributeError`); the constructors below correspond one-to-one to the
distinct failure sites, annotated with the taxonomy names of the spec. -/
inductive OOError where
  /-- message `Initialization USBCOM` (spec: `InitializationFailure`) -/
  | initializationUSBCOM : OOError
  /-- message `Initialization SPECTRUM` (spec: `InitializationFailure`) -/
  | initializationSPECTRUM : OOError
  /-- message `This spectrometer has less correction factors`
      (spec: `CalibrationMismatchError`) -/
  | calibrationMismatch : OOError
  /-- message `request_spectrum: Wrong answer` (spec: `SynchronizationError`) -/
  | wrongSyncByte : OOError
  /-- Python `struct.error` from unpacking a buffer of the wrong length -/
  | structUnpack : OOError
  /-- passthrough USB transport failure (spec: `TransportError`) -/
  | transportError : OOError
  /-- Python `AttributeError` from reading a never-assigned attribute -/
  | attributeError : OOError
deriving DecidableEq, Repr

/-- Byte access into a buffer, `l.getD i 0`; out-of-range reads yield 0 and
only occur in length-checked contexts. -/
def byteAt (l : List ℕ) (i : ℕ) : ℕ := l.getD i 0

/-- Little-endian 16-bit read at byte offset `i` (struct format `<H`). -/
def readLE16 (l : List ℕ) (i : ℕ) : ℕ := byteAt l i + 256 * byteAt l (i + 1)

/-- Little-endian 32-bit read at byte offset `i` (struct format `<L`). -/
def readLE32 (l : List ℕ) (i : ℕ) : ℕ :=
  byteAt l i + 256 * byteAt l (i + 1) + 65536 * byteAt l (i + 2) +
    16777216 * byteAt l (i + 3)

/-- Decode one little-endian signed 16-bit sample from two bytes
(struct format `<h`). -/
def decodeI16 (b0 b1 : ℕ) : ℤ :=
  if (b0 : ℤ) + 256 * (b1 : ℤ) < 32768 then (b0 : ℤ) + 256 * (b1 : ℤ)
  else (b0 : ℤ) + 256 * (b1 : ℤ) - 65536

/-- Decode a byte buffer as consecutive little-endian signed 16-bit samples
(struct format `<h * n`). -/
def decodeI16List : List ℕ → List ℤ
  | b0 :: b1 :: rest => decodeI16 b0 b1 :: decodeI16List rest
  | _ => []

/-- Encode one signed 16-bit sample as two little-endian bytes
(struct format `<h`, inverse of `decodeI16`). -/
def encodeI16LE (z : ℤ) : List ℕ :=
  [(z % 65536).toNat % 256, (z % 65536).toNat / 256]

/-- Encode a full sample list into the byte stream the device would send. -/
def encodeSamples (samples : List ℤ) : List ℕ := samples.flatMap encodeI16LE

/-- Encode a 32-bit unsigned little-endian integer (struct format `<I`). -/
def encodeU32LE (t : ℕ) : List ℕ :=
  [t % 256, t / 256 % 256, t / 65536 % 256, t / 16777216 % 256]

/-- IEEE-754 binary32 value of four little-endian bytes, as a rational
(struct format `<f`).  Infinities and NaNs (exponent 255) are collapsed to 0;
no claim depends on those. -/
def decodeF32LE (b0 b1 b2 b3 : ℕ) : ℚ :=
  let bits : ℕ := b0 % 256 + 256 * (b1 % 256) + 65536 * (b2 % 256) +
    16777216 * (b3 % 256)
  let sign : ℕ := bits / 2 ^ 31
  let expo : ℕ := bits / 2 ^ 23 % 256
  let frac : ℕ := bits % 2 ^ 23
  let mag : ℚ :=
    if expo = 0 then (frac : ℚ) / 2 ^ 149
    else if expo = 255 then 0
    else ((2 ^ 23 + frac : ℕ) : ℚ) * 2 ^ expo / 2 ^ 150
  if sign = 1 then -mag else mag

/-- The wavelength polynomial applied to one pixel value:
`sum(wl[i] * p**i for i in range(4))`. -/
def wavelengthPoly (wl : Fin 4 → ℚ) (p : ℚ) : ℚ :=
  ∑ i : Fin 4, wl i * p ^ (i : ℕ)

/-- The legacy nonlinearity divisor applied to one raw sample:
`sum(nl[i] * raw**i for i in range(8))` (`USB2000.acquire_spectrum`). -/
def nlDivisor (nl : Fin 8 → ℚ) (r : ℚ) : ℚ :=
  ∑ i : Fin 8, nl i * r ^ (i : ℕ)

/-- The STS nonlinearity divisor: `sum(nl[i] * raw**i for i in
range(nl_coeffs))` with `nl_coeffs = len(nl)` (`STS.acquire_spectrum`). -/
def stsNlDivisor (nl : List ℚ) (r : ℚ) : ℚ :=
  ∑ i ∈ Finset.range nl.length, nl.getD i 0 * r ^ i

/-- `np.arange(a, b)` as a list of rationals. -/
def arangeQ (a b : ℕ) : List ℚ := (List.range (b - a)).map (fun k => ((a + k : ℕ) : ℚ))

/-- `USB2000.acquire_spectrum`: drop the first 20 raw samples, compute the
wavelength row over pixels 20..2047 and the corrected intensity row
`raw / sum(nl[i]*raw**i) * st`, and return the two rows. -/
def USB2000.acquire_spectrum (wl : Fin 4 → ℚ) (nl : Fin 8 → ℚ) (st : ℚ)
    (spectrum : List ℤ) : List ℚ × List ℚ :=
  let raw := (spectrum.map (fun z : ℤ => (z : ℚ))).drop 20
  let wavelength := (arangeQ 20 2048).map (wavelengthPoly wl)
  let intensity := raw.map (fun r => r / nlDivisor nl r * st)
  (wavelength, intensity)

/-- `STS.acquire_spectrum`: full 1024-pixel range, wavelength row over
pixels 0..1023, intensity `raw / sum(nl[i]*raw**i for i in range(len(nl)))`
(no saturation factor for the framed protocol). -/
def STS.acquire_spectrum (wl : Fin 4 → ℚ) (nl : List ℚ)
    (raw : List ℕ) : List ℚ × List ℚ :=
  let rawq := raw.map (fun z : ℕ => (z : ℚ))
  let wavelength := (arangeQ 0 1024).map (wavelengthPoly wl)
  let intensity := rawq.map (fun r => r / stsNlDivisor nl r)
  (wavelength, intensity)

/-- C1: for the legacy protocol, `acquire_spectrum` on a 2048-sample raw
spectrum returns two rows of length 2028 (the first 20 samples discarded),
each intensity being the nonlinearity/saturation formula applied to the
corresponding raw sample; for the framed protocol both rows have length
1024 over the full pixel range and each intensity is the nonlinearity
formula applied to the corresponding raw sample. -/
theorem acquire_spectrum_rows_shape (wl : Fin 4 → ℚ) (nl : Fin 8 → ℚ) (st : ℚ)
    (spectrum : List ℤ) (hlen : spectrum.length = 2048)
    (wlS : Fin 4 → ℚ) (nlS : List ℚ) (raw : List ℕ) (hlenS : raw.length = 1024) :
    ((USB2000.acquire_spectrum wl nl st spectrum).1.length = 2028 ∧
     (USB2000.acquire_spectrum wl nl st spectrum).2.length = 2028 ∧
     ∀ k, (USB2000.acquire_spectrum wl nl st spectrum).2[k]? =
        Option.map (fun z : ℤ => (z : ℚ) / nlDivisor nl (z : ℚ) * st)
          spectrum[20 + k]?) ∧
    ((STS.acquire_spectrum wlS nlS raw).1.length = 1024 ∧
     (STS.acquire_spectrum wlS nlS raw).2.length = 1024 ∧
     ∀ k : ℕ, (STS.acquire_spectrum wlS nlS raw).2[k]? =
        Option.map (fun z : ℕ => (z : ℚ) / stsNlDivisor nlS (z : ℚ)) raw[k]?) := by
  refine ⟨⟨?_, ?_, ?_⟩, ⟨?_, ?_, ?_⟩⟩
  · simp [USB2000.acquire_spectrum, arangeQ]
  · simp only [USB2000.acquire_spectrum, List.length_map, List.length_drop, hlen]
  · intro k
    simp only [USB2000.acquire_spectrum, List.getElem?_map, List.getElem?_drop,
      Option.map_map]
    rfl
  · simp [STS.acquire_spectrum, arangeQ]
  · simp only [STS.acquire_spectrum, List.length_map, hlenS]
  · intro k
    simp only [STS.acquire_spectrum, List.getElem?_map, Option.map_map]
    rfl

/-- C1 witness: the shape facts evaluated at a concrete all-zero spectrum. -/
theorem acquire_spectrum_rows_shape_witness :
    (USB2000.acquire_spectrum (fun _ => 1) (fun _ => 1) 1
        (List.replicate 2048 0)).1.length = 2028 ∧
    (USB2000.acquire_spectrum (fun _ => 1) (fun _ => 1) 1
        (List.replicate 2048 0)).2.length = 2028 ∧
    (USB2000.acquire_spectrum (fun _ => 1) (fun _ => 1) 1
        (List.replicate 2048 0)).2[0]? =
      Option.map (fun z : ℤ => (z : ℚ) / nlDivisor (fun _ => 1) (z : ℚ) * 1)
        (List.replicate 2048 (0 : ℤ))[20 + 0]? ∧
    (STS.acquire_spectrum (fun _ => 1) [1] (List.replicate 1024 0)).1.length = 1024 ∧
    (STS.acquire_spectrum (fun _ => 1) [1] (List.replicate 1024 0)).2.length = 1024 ∧
    (STS.acquire_spectrum (fun _ => 1) [1] (List.replicate 1024 0)).2[0]? =
      Option.map (fun z : ℕ => (z : ℚ) / stsNlDivisor [1] (z : ℚ))
        (List.replicate 1024 (0 : ℕ))[0]? := by
  have h := acquire_spectrum_rows_shape (fun _ => 1) (fun _ => 1) 1
    (List.replicate 2048 0) (List.length_replicate 2048 0) (fun _ => 1) [1]
    (List.replicate 1024 0) (List.length_replicate 1024 0)
  exact ⟨h.1.1, h.1.2.1, h.1.2.2 0, h.2.1, h.2.2.1, h.2.2.2 0⟩

/-- Expansion of the wavelength polynomial into its four monomials. -/
theorem wavelengthPoly_expand (wl : Fin 4 → ℚ) (x : ℚ) :
    wavelengthPoly wl x = wl 0 + wl 1 * x + wl 2 * x ^ 2 + wl 3 * x ^ 3 := by
  rw [wavelengthPoly, Fin.sum_univ_four]
  norm_num [show ((0 : Fin 4) : ℕ) = 0 from rfl, show ((1 : Fin 4) : ℕ) = 1 from rfl,
    show ((2 : Fin 4) : ℕ) = 2 from rfl, show ((3 : Fin 4) : ℕ) = 3 from rfl]

/-- C8: the wavelength row produced by `acquire_spectrum` evaluates the cubic
calibration polynomial at each valid pixel index: entry `p - 20` of the legacy
row (pixels 20..2047) and entry `q` of the framed row (pixels 0..1023) equal
`c0 + c1*p + c2*p^2 + c3*p^3`. -/
theorem wavelength_row_polynomial (wl : Fin 4 → ℚ) (nl : Fin 8 → ℚ) (st : ℚ)
    (spectrum : List ℤ) (nlS : List ℚ) (raw : List ℕ) (p q : ℕ)
    (h20 : 20 ≤ p) (h2048 : p < 2048) (hq : q < 1024) :
    (USB2000.acquire_spectrum wl nl st spectrum).1[p - 20]? =
      some (wl 0 + wl 1 * (p : ℚ) + wl 2 * (p : ℚ) ^ 2 + wl 3 * (p : ℚ) ^ 3) ∧
    (STS.acquire_spectrum wl nlS raw).1[q]? =
      some (wl 0 + wl 1 * (q : ℚ) + wl 2 * (q : ℚ) ^ 2 + wl 3 * (q : ℚ) ^ 3) := by
  constructor
  · have hlt : p - 20 < 2048 - 20 := by omega
    have hp : 20 + (p - 20) = p := by omega
    have harr : (arangeQ 20 2048)[p - 20]? = some ((p : ℚ)) := by
      simp only [arangeQ, List.getElem?_map, List.getElem?_range hlt,
        Option.map_some']
      rw [hp]
    simp only [USB2000.acquire_spectrum, List.getElem?_map, harr,
      Option.map_some', wavelengthPoly_expand]
  · have hlt : q < 1024 - 0 := by omega
    have harr : (arangeQ 0 1024)[q]? = some ((q : ℚ)) := by
      simp only [arangeQ, List.getElem?_map, List.getElem?_range hlt,
        Option.map_some', Nat.zero_add]
    simp only [STS.acquire_spectrum, List.getElem?_map, harr,
      Option.map_some', wavelengthPoly_expand]

/-- C8 witness: boundary pixels 20 (legacy) and 0 (framed) with concrete
coefficients. -/
theorem wavelength_row_polynomial_witness :
    (USB2000.acquire_spectrum (fun i => (i : ℚ)) (fun _ => 1) 1 []).1[20 - 20]? =
      some ((fun i : Fin 4 => (i : ℚ)) 0 + (fun i : Fin 4 => (i : ℚ)) 1 * ((20 : ℕ) : ℚ) +
        (fun i : Fin 4 => (i : ℚ)) 2 * ((20 : ℕ) : ℚ) ^ 2 +
        (fun i : Fin 4 => (i : ℚ)) 3 * ((20 : ℕ) : ℚ) ^ 3) ∧
    (STS.acquire_spectrum (fun i => (i : ℚ)) [] []).1[(0 : ℕ)]? =
      some ((fun i : Fin 4 => (i : ℚ)) 0 + (fun i : Fin 4 => (i : ℚ)) 1 * ((0 : ℕ) : ℚ) +
        (fun i : Fin 4 => (i : ℚ)) 2 * ((0 : ℕ) : ℚ) ^ 2 +
        (fun i : Fin 4 => (i : ℚ)) 3 * ((0 : ℕ) : ℚ) ^ 3) :=
  wavelength_row_polynomial (fun i => (i : ℚ)) (fun _ => 1) 1 [] [] [] 20 0
    (by decide) (by decide) (by decide)

/-- Reassembling a chunk list whose entries all have length `sz` by indexed
reads recovers the chunk list itself. -/
theorem chunks_map_getD_take (cs : List (List ℕ)) (sz n : ℕ) (hn : cs.length = n)
    (h : ∀ c ∈ cs, c.length = sz) :
    (List.range n).map (fun i => (cs.getD i []).take sz) = cs := by
  subst hn
  induction cs with
  | nil => rfl
  | cons c cs ih =>
    have hc : c.take sz = c := by
      rw [← h c (List.mem_cons_self c cs)]
      exact List.take_length c
    have ih2 := ih (fun d hd => h d (List.mem_cons_of_mem c hd))
    simp only [List.length_cons, List.range_succ_eq_map, List.map_cons,
      List.getD_cons_zero, List.map_map]
    rw [hc]
    refine congrArg (List.cons c) (Eq.trans (List.map_congr_left ?_) ih2)
    intro i _
    rfl

/-- The byte stream of an encoded sample list has twice the length. -/
theorem encodeSamples_length (samples : List ℤ) :
    (encodeSamples samples).length = 2 * samples.length := by
  induction samples with
  | nil => rfl
  | cons z zs ih =>
    simp only [encodeSamples, List.flatMap_cons, List.length_append,
      List.length_cons] at *
    simp [encodeI16LE, ih]
    omega

/-- Round trip of one signed 16-bit sample through its wire encoding. -/
theorem decodeI16_encodeI16 (z : ℤ) (h1 : -32768 ≤ z) (h2 : z < 32768) :
    decodeI16 ((z % 65536).toNat % 256) ((z % 65536).toNat / 256) = z := by
  unfold decodeI16
  split <;> omega

/-- Round trip of a sample list through its wire encoding. -/
theorem decodeI16List_encodeSamples (samples : List ℤ)
    (h : ∀ z ∈ samples, -32768 ≤ z ∧ z < 32768) :
    decodeI16List (encodeSamples samples) = samples := by
  induction samples with
  | nil => rfl
  | cons z zs ih =>
    have hz := h z (List.mem_cons_self z zs)
    have ih2 := ih (fun w hw => h w (List.mem_cons_of_mem z hw))
    simp only [encodeSamples, List.flatMap_cons, encodeI16LE,
      List.cons_append, List.nil_append] at *
    rw [decodeI16List, decodeI16_encodeI16 z hz.1 hz.2, ih2]

/-- Number of spectrum reads: 8 when the cached USB speed is `0x80`
(high-speed), else 64 (full-speed). -/
def nChunks (usbcomm : ℕ) : ℕ := if usbcomm = 0x80 then 8 else 64

/-- Chunk size of one spectrum read: 512 bytes when high-speed, else 64. -/
def chunkSize (usbcomm : ℕ) : ℕ := if usbcomm = 0x80 then 512 else 64

/-- Concatenation, in order, of the chunks the transport returns for the
`nChunks` successive spectrum reads (`ret = sum(ret[1:], ret[0])`); each read
returns at most `chunkSize` bytes. -/
def spectrumBuffer (usbcomm : ℕ) (chunks : List (List ℕ)) : List ℕ :=
  ((List.range (nChunks usbcomm)).map
    (fun i => (chunks.getD i []).take (chunkSize usbcomm))).flatten

/-- `USB2000._request_spectrum`: after the `0x09` write, read `nChunks`
chunks of `chunkSize` bytes on EP2, concatenate them in order, unpack 2048
little-endian signed 16-bit samples, then read one sync byte and fail when
it is not `0x69`.  `chunks` lists the byte blocks the transport returns for
the successive reads; `sync` is the final one-byte read. -/
def USB2000.request_spectrum (usbcomm : ℕ) (chunks : List (List ℕ))
    (sync : ℕ) : Except OOError (List ℤ) :=
  if (spectrumBuffer usbcomm chunks).length ≠ 4096 then .error .structUnpack
  else if sync ≠ 0x69 then .error .wrongSyncByte
  else .ok (decodeI16List (spectrumBuffer usbcomm chunks))

/-- C7: for a legacy spectrum read, high speed consumes exactly the first 8
chunks of 512 bytes and full speed exactly the first 64 chunks of 64 bytes;
the chunks are concatenated in order (first chunk included, all required, so
the known sample pattern is recovered exactly), and the read fails with the
synchronization error if and only if the trailing byte is not `0x69`. -/
theorem legacy_spectrum_chunking_and_sync (samples : List ℤ)
    (chunksH chunksF : List (List ℕ)) (sync : ℕ)
    (hs : samples.length = 2048)
    (hr : ∀ z ∈ samples, -32768 ≤ z ∧ z < 32768)
    (h8 : chunksH.length = 8) (h512 : ∀ c ∈ chunksH, c.length = 512)
    (hjh : chunksH.flatten = encodeSamples samples)
    (h64 : chunksF.length = 64) (h64s : ∀ c ∈ chunksF, c.length = 64)
    (hjf : chunksF.flatten = encodeSamples samples) :
    USB2000.request_spectrum 0x80 chunksH sync =
      (if sync = 0x69 then .ok samples else .error .wrongSyncByte) ∧
    USB2000.request_spectrum 0x00 chunksF sync =
      (if sync = 0x69 then .ok samples else .error .wrongSyncByte) := by
  have e1 : spectrumBuffer 0x80 chunksH = encodeSamples samples := by
    rw [spectrumBuffer, show nChunks 0x80 = 8 from rfl,
      show chunkSize 0x80 = 512 from rfl,
      chunks_map_getD_take chunksH 512 8 h8 h512, hjh]
  have e2 : spectrumBuffer 0x00 chunksF = encodeSamples samples := by
    rw [spectrumBuffer, show nChunks 0x00 = 64 from rfl,
      show chunkSize 0x00 = 64 from rfl,
      chunks_map_getD_take chunksF 64 64 h64 h64s, hjf]
  have hlen : (encodeSamples samples).length = 4096 := by
    rw [encodeSamples_length, hs]
  have hdec := decodeI16List_encodeSamples samples hr
  constructor
  · rw [USB2000.request_spectrum, e1, hlen, hdec]
    norm_num
  · rw [USB2000.request_spectrum, e2, hlen, hdec]
    norm_num

/-- Flattening a replicated chunk list yields a replicated byte list. -/
theorem flatten_replicate_replicate (m k : ℕ) :
    (List.replicate m (List.replicate k (0 : ℕ))).flatten =
      List.replicate (m * k) 0 := by
  induction m with
  | zero => simp
  | succ m ih =>
    rw [List.replicate_succ, List.flatten_cons, ih,
      show (m + 1) * k = k + m * k by ring, List.replicate_add]

/-- Encoding an all-zero sample list yields an all-zero byte stream. -/
theorem encodeSamples_replicate_zero (n : ℕ) :
    encodeSamples (List.replicate n 0) = List.replicate (2 * n) 0 := by
  induction n with
  | zero => rfl
  | succ m ih =>
    rw [List.replicate_succ, encodeSamples, List.flatMap_cons,
      show encodeI16LE 0 = [0, 0] from rfl, ← encodeSamples, ih,
      show 2 * (m + 1) = 2 + 2 * m by ring]
    rw [List.replicate_add]
    rfl

/-- C7 witness: a high-speed read of 8 x 512 zero bytes and a full-speed read
of 64 x 64 zero bytes, with sync byte `0x69`, both decode to the all-zero
2048-sample spectrum. -/
theorem legacy_spectrum_chunking_and_sync_witness :
    USB2000.request_spectrum 0x80 (List.replicate 8 (List.replicate 512 0)) 0x69 =
      (if (0x69 : ℕ) = 0x69 then Except.ok (List.replicate 2048 (0 : ℤ))
       else Except.error OOError.wrongSyncByte) ∧
    USB2000.request_spectrum 0x00 (List.replicate 64 (List.replicate 64 0)) 0x69 =
      (if (0x69 : ℕ) = 0x69 then Except.ok (List.replicate 2048 (0 : ℤ))
       else Except.error OOError.wrongSyncByte) :=
  legacy_spectrum_chunking_and_sync (List.replicate 2048 0)
    (List.replicate 8 (List.replicate 512 0))
    (List.replicate 64 (List.replicate 64 0)) 0x69
    (List.length_replicate _ _)
    (fun z hz => by rw [List.eq_of_mem_replicate hz]; norm_num)
    (List.length_replicate _ _)
    (fun c hc => by rw [List.eq_of_mem_replicate hc, List.length_replicate])
    (by rw [flatten_replicate_replicate, encodeSamples_replicate_zero])
    (List.length_replicate _ _)
    (fun c hc => by rw [List.eq_of_mem_replicate hc, List.length_replicate])
    (by rw [flatten_replicate_replicate, encodeSamples_replicate_zero])

/-- `STS._query_coefficient_count` response handling: the 64-byte frame is
unpacked as `<HHHHLL6sBBB15sL16sL`; on a 64-byte buffer with zero status
field `ack[3]` (bytes 6..7) the single count byte `ack[9]` (byte 24) is
returned, otherwise the code prints the error code and returns `-1`; a
buffer of any other length also yields `-1`.  The start and end markers of
the frame are never examined. -/
def STS.queryCoefficientCountDecode (ret : List ℕ) : ℤ :=
  if ret.length = 64 then
    if readLE16 ret 6 = 0 then (byteAt ret 24 : ℤ)
    else -1
  else -1

/-- `STS._query_coefficient` response handling: unpack `<HHHHLL6sBBf12sL16sL`;
on a 64-byte buffer with zero status field return the float `ack[9]`
(bytes 24..27), else print the error code and return `-1`. -/
def STS.queryCoefficientDecode (ret : List ℕ) : ℚ :=
  if ret.length = 64 then
    if readLE16 ret 6 = 0 then
      decodeF32LE (byteAt ret 24) (byteAt ret 25) (byteAt ret 26) (byteAt ret 27)
    else -1
  else -1

/-- `STS._request_spectrum` decoding: the 33 x 64 reads are concatenated and
unpacked as `<HHHHLLLHBB16sL1024H16sL` (2112 bytes in total); the 1024
unsigned 16-bit samples `spectrum[12:1036]` sit at byte offsets
`44 + 2*k`.  No field of the frame is validated; a wrong total length is a
`struct.error`. -/
def STS.requestSpectrumDecode (buf : List ℕ) : Except OOError (List ℕ) :=
  if buf.length = 2112 then
    .ok ((List.range 1024).map (fun k => readLE16 buf (44 + 2 * k)))
  else .error .structUnpack

/-- Frame-validation failures named by the error taxonomy of the spec. -/
inductive FrameValidationError where
  | badLength : FrameValidationError
  | badStartMarker : FrameValidationError
  | badEndMarker : FrameValidationError
  | deviceError : ℕ → FrameValidationError
deriving DecidableEq, Repr

/-- Decoding of a framed count response as the spec words it, for comparison
with `STS.queryCoefficientCountDecode`: validate the total response length,
the `0xC0C1` start marker and `0xC2C3C4C5` end marker, then fail with the
device-reported code when the status field is non-zero. -/
def spec_decodeCountFrame (ret : List ℕ) : Except FrameValidationError ℕ :=
  if ret.length ≠ 64 then .error .badLength
  else if readLE16 ret 0 ≠ 0xC0C1 then .error .badStartMarker
  else if readLE32 ret 60 ≠ 0xC2C3C4C5 then .error .badEndMarker
  else if readLE16 ret 6 ≠ 0 then .error (.deviceError (readLE16 ret 6))
  else .ok (byteAt ret 24)

/-- A well-formed 64-byte frame (correct start and end markers, protocol
version `0x0100`) whose status field `ack[3]` carries the device error
code 1, and whose count byte is 42. -/
def frameStatus1 : List ℕ :=
  [0xC1, 0xC0, 0x00, 0x01, 0, 0, 1, 0] ++ List.replicate 16 0 ++ [42] ++
    List.replicate 35 0 ++ [0xC5, 0xC4, 0xC3, 0xC2]

/-- C2 counterexample: on a frame whose status field is non-zero the code
does not fail with a frame-validation error carrying the device code (as
the claim states) - it substitutes the default value `-1` and returns it
to the caller. -/
theorem framed_nonzero_status_returns_sentinel_counterexample :
    readLE16 frameStatus1 6 = 1 ∧
    STS.queryCoefficientCountDecode frameStatus1 = -1 ∧
    spec_decodeCountFrame frameStatus1 =
      Except.error (FrameValidationError.deviceError 1) := by
  refine ⟨by decide, by decide, by rfl⟩

/-- C2 amended: for every framed response whose status field is non-zero,
`_query_coefficient_count` and `_query_coefficient` print the device code
and return the sentinel `-1` instead of raising; the payload is not
exposed, but the sentinel is a silently substituted default value. -/
theorem framed_decode_error_returns_sentinel (ret : List ℕ)
    (h64 : ret.length = 64) (hst : readLE16 ret 6 ≠ 0) :
    STS.queryCoefficientCountDecode ret = -1 ∧
    STS.queryCoefficientDecode ret = -1 := by
  constructor
  · simp [STS.queryCoefficientCountDecode, h64, hst]
  · simp [STS.queryCoefficientDecode, h64, hst]

/-- C2 amended witness: the sentinel returns evaluated on the concrete
non-zero-status frame. -/
theorem framed_decode_error_returns_sentinel_witness :
    STS.queryCoefficientCountDecode frameStatus1 = -1 ∧
    STS.queryCoefficientDecode frameStatus1 = -1 :=
  framed_decode_error_returns_sentinel frameStatus1 (by decide) (by decide)

/-- A 64-byte frame with zeroed start and end markers (both wrong), zero
status field, and count byte 5. -/
def frameBadMarkers : List ℕ :=
  List.replicate 24 0 ++ [5] ++ List.replicate 39 0

/-- C6 counterexample: the framed decode accepts a frame whose start (and
end) markers are wrong - the claim that a wrong start/end marker is a
`FrameValidationError` rather than being accepted fails: the count byte 5
is returned as valid data. -/
theorem framed_decode_ignores_markers_counterexample :
    readLE16 frameBadMarkers 0 ≠ 0xC0C1 ∧
    STS.queryCoefficientCountDecode frameBadMarkers = 5 ∧
    spec_decodeCountFrame frameBadMarkers =
      Except.error FrameValidationError.badStartMarker := by
  refine ⟨by decide, by decide, by rfl⟩

/-- C6 amended: decoding a framed response checks only the total response
length (64 bytes; anything else yields the sentinel `-1`) and the status
field (non-zero yields `-1`); the start and end markers are never
validated, so any 64-byte zero-status buffer is accepted and its count
byte returned, and a spectrum response buffer of the expected 2112 bytes
is decoded with no validation at all. -/
theorem framed_decode_checks_length_status_only (ret buf : List ℕ)
    (hbuf : buf.length = 2112) :
    (ret.length ≠ 64 → STS.queryCoefficientCountDecode ret = -1) ∧
    (ret.length = 64 → readLE16 ret 6 ≠ 0 →
      STS.queryCoefficientCountDecode ret = -1) ∧
    (ret.length = 64 → readLE16 ret 6 = 0 →
      STS.queryCoefficientCountDecode ret = (byteAt ret 24 : ℤ)) ∧
    STS.requestSpectrumDecode buf =
      .ok ((List.range 1024).map (fun k => readLE16 buf (44 + 2 * k))) := by
  refine ⟨?_, ?_, ?_, ?_⟩
  · intro h
    simp [STS.queryCoefficientCountDecode, h]
  · intro h hst
    simp [STS.queryCoefficientCountDecode, h, hst]
  · intro h hst
    simp [STS.queryCoefficientCountDecode, h, hst]
  · simp [STS.requestSpectrumDecode, hbuf]

/-- C6 amended witness: a short buffer is rejected with the sentinel, an
all-zero 64-byte buffer (wrong markers) is accepted, and an all-zero
2112-byte spectrum buffer is decoded. -/
theorem framed_decode_checks_length_status_only_witness :
    STS.queryCoefficientCountDecode (List.replicate 63 0) = -1 ∧
    STS.queryCoefficientCountDecode (List.replicate 64 0) =
      (byteAt (List.replicate 64 0) 24 : ℤ) ∧
    STS.requestSpectrumDecode (List.replicate 2112 0) =
      .ok ((List.range 1024).map
        (fun k => readLE16 (List.replicate 2112 0) (44 + 2 * k))) := by
  have h := framed_decode_checks_length_status_only (List.replicate 63 0)
    (List.replicate 2112 0) (List.length_replicate _ _)
  have h2 := framed_decode_checks_length_status_only (List.replicate 64 0)
    (List.replicate 2112 0) (List.length_replicate _ _)
  exact ⟨h.1 (by decide), h2.2.2.1 (List.length_replicate _ _) (by decide), h.2.2.2⟩

/-- Mutable state of a legacy-protocol session relevant to
`integration_time`. -/
structure USB2000DevState where
  it : ℕ
deriving DecidableEq, Repr

/-- The `struct.pack` bytes of the legacy `0x02` set-integration-time
command (format `<BI`). -/
def legacySetItCmd (t : ℕ) : List ℕ := 0x02 :: encodeU32LE t

/-- `USB2000.integration_time`: when a value is supplied, write the `0x02`
set-command; then always refresh `self._it` from the `integration_time`
field of `_query_status` and return it.  `devStatusIt` is the
integration-time field the device reports in the status response; the
third component lists the set-command bytes written, if any. -/
def USB2000.integration_time (s : USB2000DevState) (devStatusIt : ℕ)
    (timeUs : Option ℕ) : USB2000DevState × ℕ × Option (List ℕ) :=
  ({ it := devStatusIt }, devStatusIt, timeUs.map legacySetItCmd)

/-- Mutable state of a framed-protocol session relevant to
`integration_time` (`self._it` may be unassigned). -/
structure STSDevState where
  it : Option ℕ
  scanAverages : ℕ
deriving DecidableEq, Repr

/-- `STS._set_integration_time`: write the framed set command, then try to
read the 64-byte acknowledgment.  When the read raises (the `except`
branch), `self._it` is set to the requested value and `None` is returned;
when a 64-byte acknowledgment arrives, `-1` is returned whatever the status
field says and `self._it` is left unchanged (on zero status only the local
`time_us` is rebound to `ack[9]`); a response of any other length also
yields `-1`.  `ackRead` is `none` when the read raises, else the bytes
read. -/
def STS.set_integration_time (s : STSDevState) (ackRead : Option (List ℕ))
    (timeUs : ℕ) : STSDevState × Option ℤ :=
  match ackRead with
  | none => ({ s with it := some timeUs }, none)
  | some ret =>
    if ret.length = 64 then
      if readLE16 ret 6 = 0 then (s, some (-1))
      else (s, some (-1))
    else (s, some (-1))

/-- `STS.integration_time`: when a value is supplied, forward it to
`_set_integration_time`; the method returns its own `time_us` argument
(`None` when no value was supplied), not the stored state. -/
def STS.integration_time (s : STSDevState) (ackRead : Option (List ℕ))
    (timeUs : Option ℕ) : STSDevState × Option ℕ :=
  match timeUs with
  | none => (s, none)
  | some t => ((STS.set_integration_time s ackRead t).1, some t)

/-- On any received acknowledgment (whatever its length or status),
`_set_integration_time` returns `-1` and leaves the state unchanged. -/
theorem sts_set_it_recv (s : STSDevState) (r : List ℕ) (t : ℕ) :
    STS.set_integration_time s (some r) t = (s, some (-1)) := by
  by_cases h : r.length = 64
  · by_cases h2 : readLE16 r 6 = 0 <;> simp [STS.set_integration_time, h, h2]
  · simp [STS.set_integration_time, h]

/-- C5 counterexample: with stored integration time 10000 and a well-formed
success acknowledgment available, `STS.integration_time` called without a
new value returns `None` rather than the current effective value 10000, and
a call supplying 5000 leaves the stored state at 10000, so the
locally-echoed value is not adopted as the new state on a successful
acknowledgment. -/
theorem sts_integration_time_counterexample :
    (STS.integration_time ⟨some 10000, 10⟩ (some (List.replicate 64 0)) none).2
        = none ∧
    (⟨some 10000, 10⟩ : STSDevState).it = some 10000 ∧
    (STS.integration_time ⟨some 10000, 10⟩ (some (List.replicate 64 0))
        (some 5000)).1.it = some 10000 := by
  refine ⟨rfl, rfl, by decide⟩

/-- C5 amended: for the legacy protocol the claim holds as stated: when a
value is supplied the `0x02` set-command is issued, and the
device-confirmed status value is adopted as the new state and returned
(whether or not a value was supplied).  For the framed protocol, a
set-command is issued when a value is supplied, but the call returns its
own argument (`None` when no value is supplied) rather than the stored
state, and the supplied value becomes the stored state only when the
acknowledgment read raises; on a received acknowledgment the state is
unchanged. -/
theorem integration_time_behavior (s : USB2000DevState) (q t : ℕ)
    (s2 : STSDevState) (ack : Option (List ℕ)) (ret : List ℕ) (t2 : ℕ) :
    USB2000.integration_time s q (some t) =
      ({ it := q }, q, some (legacySetItCmd t)) ∧
    USB2000.integration_time s q none = ({ it := q }, q, none) ∧
    (STS.integration_time s2 ack (some t2)).2 = some t2 ∧
    STS.integration_time s2 ack none = (s2, none) ∧
    (STS.integration_time s2 (some ret) (some t2)).1 = s2 ∧
    (STS.integration_time s2 none (some t2)).1 = { s2 with it := some t2 } := by
  refine ⟨rfl, rfl, rfl, rfl, ?_, rfl⟩
  show (STS.set_integration_time s2 (some ret) t2).1 = s2
  rw [sts_set_it_recv]

/-- C9: `_set_integration_time` updates the stored integration time only
when reading the acknowledgment raises a transport exception; on any
received acknowledgment - including a well-formed 64-byte frame with
status 0 (success) - it returns `-1` and leaves the stored state
unchanged. -/
theorem sts_set_integration_time_state_update (s : STSDevState)
    (ret : List ℕ) (t : ℕ) (h64 : ret.length = 64)
    (hst : readLE16 ret 6 = 0) :
    STS.set_integration_time s none t = ({ s with it := some t }, none) ∧
    STS.set_integration_time s (some ret) t = (s, some (-1)) ∧
    (∀ r : List ℕ, (STS.set_integration_time s (some r) t).1 = s) := by
  refine ⟨rfl, sts_set_it_recv s ret t, fun r => ?_⟩
  rw [sts_set_it_recv]

/-- C9 witness: a status-0 acknowledgment leaves the state unchanged and
returns `-1`; a raising read stores the requested value. -/
theorem sts_set_integration_time_state_update_witness :
    STS.set_integration_time ⟨some 1, 0⟩ none 777 =
      ({ (⟨some 1, 0⟩ : STSDevState) with it := some 777 }, none) ∧
    STS.set_integration_time ⟨some 1, 0⟩ (some (List.replicate 64 0)) 777 =
      (⟨some 1, 0⟩, some (-1)) ∧
    (∀ r : List ℕ,
      (STS.set_integration_time ⟨some 1, 0⟩ (some r) 777).1 = ⟨some 1, 0⟩) :=
  sts_set_integration_time_state_update ⟨some 1, 0⟩ (List.replicate 64 0) 777
    (List.length_replicate _ _) (by decide)

/-- `USB2000._get_nonlinearity_calibration`: read the coefficient count from
information address 14 and require it to be exactly 7, then read the 8
coefficients stored at information addresses 6..13.  `count` is the parsed
count the device reports; `info address` is the parsed float stored at an
information address. -/
def USB2000.get_nonlinearity_calibration (count : ℤ) (info : ℕ → ℚ) :
    Except OOError (List ℚ) :=
  if count ≠ 7 then .error .calibrationMismatch
  else .ok ((List.range 8).map (fun k => info (6 + k)))

/-- Expansion of the legacy nonlinearity divisor into its eight monomials. -/
theorem nlDivisor_expand (nl : Fin 8 → ℚ) (r : ℚ) :
    nlDivisor nl r = nl 0 + nl 1 * r + nl 2 * r ^ 2 + nl 3 * r ^ 3 +
      nl 4 * r ^ 4 + nl 5 * r ^ 5 + nl 6 * r ^ 6 + nl 7 * r ^ 7 := by
  rw [nlDivisor, Fin.sum_univ_eight]
  norm_num [show ((0 : Fin 8) : ℕ) = 0 from rfl, show ((1 : Fin 8) : ℕ) = 1 from rfl,
    show ((2 : Fin 8) : ℕ) = 2 from rfl, show ((3 : Fin 8) : ℕ) = 3 from rfl,
    show ((4 : Fin 8) : ℕ) = 4 from rfl, show ((5 : Fin 8) : ℕ) = 5 from rfl,
    show ((6 : Fin 8) : ℕ) = 6 from rfl, show ((7 : Fin 8) : ℕ) = 7 from rfl]

/-- C10: the legacy nonlinearity loader insists the device-reported count
equals exactly 7 (anything else aborts with the calibration-mismatch
error), yet it then reads 8 coefficients, from information addresses 6
through 13; and the `acquire_spectrum` correction divides each raw sample
by the sum of all 8 terms `nl[i]*raw**i`, i = 0..7. -/
theorem legacy_nonlinearity_count7_reads8 (count : ℤ) (info : ℕ → ℚ)
    (nl : Fin 8 → ℚ) (wl : Fin 4 → ℚ) (st : ℚ) (spectrum : List ℤ) (k : ℕ) :
    (count = 7 → USB2000.get_nonlinearity_calibration count info =
      .ok [info 6, info 7, info 8, info 9, info 10, info 11, info 12,
        info 13]) ∧
    (count ≠ 7 → USB2000.get_nonlinearity_calibration count info =
      .error .calibrationMismatch) ∧
    (∀ x : ℚ, nlDivisor nl x = nl 0 + nl 1 * x + nl 2 * x ^ 2 + nl 3 * x ^ 3 +
      nl 4 * x ^ 4 + nl 5 * x ^ 5 + nl 6 * x ^ 6 + nl 7 * x ^ 7) ∧
    (USB2000.acquire_spectrum wl nl st spectrum).2[k]? =
      Option.map (fun z : ℤ => (z : ℚ) / nlDivisor nl (z : ℚ) * st)
        spectrum[20 + k]? := by
  refine ⟨fun h => ?_, fun h => ?_, nlDivisor_expand nl, ?_⟩
  · subst h
    rfl
  · simp [USB2000.get_nonlinearity_calibration, h]
  · simp only [USB2000.acquire_spectrum, List.getElem?_map, List.getElem?_drop,
      Option.map_map]
    rfl

/-- C10 witness: evaluation at count 7 (accepted, 8 coefficients read) and
count 5 (rejected), with the divisor and the intensity entry at a concrete
input. -/
theorem legacy_nonlinearity_count7_reads8_witness :
    USB2000.get_nonlinearity_calibration 7 (fun _ => 1) =
      .ok [1, 1, 1, 1, 1, 1, 1, 1] ∧
    USB2000.get_nonlinearity_calibration 5 (fun _ => 1) =
      .error .calibrationMismatch ∧
    nlDivisor (fun _ => 1) 1 = 1 + 1 * 1 + 1 * 1 ^ 2 + 1 * 1 ^ 3 + 1 * 1 ^ 4 +
      1 * 1 ^ 5 + 1 * 1 ^ 6 + 1 * 1 ^ 7 ∧
    (USB2000.acquire_spectrum (fun _ => 1) (fun _ => 1) 1 []).2[0]? =
      Option.map (fun z : ℤ => (z : ℚ) / nlDivisor (fun _ => 1) (z : ℚ) * 1)
        ([] : List ℤ)[20 + 0]? := by
  have h7 := legacy_nonlinearity_count7_reads8 7 (fun _ => 1) (fun _ => 1)
    (fun _ => 1) 1 [] 0
  have h5 := legacy_nonlinearity_count7_reads8 5 (fun _ => 1) (fun _ => 1)
    (fun _ => 1) 1 [] 0
  exact ⟨h7.1 rfl, h5.2.1 (by decide), h7.2.2.1 1, h7.2.2.2⟩

/-- Steps of the legacy `USB2000.__init__` sequence, in execution order:
the speed-detection retry loop, `integration_time(1000)`, the
first-acquisition retry loop, then wavelength, nonlinearity and saturation
calibration loads. -/
inductive InitStep where
  | speedDetected : InitStep
  | itSet : InitStep
  | spectrumAcquired : InitStep
  | wlLoaded : InitStep
  | nlLoaded : InitStep
  | stLoaded : InitStep
deriving DecidableEq, Repr

/-- Device/transport behaviour driving one legacy initialization:
`speedOk i` (resp. `spectrumOk i`) tells whether attempt `i` of the
speed-detection (resp. first-acquisition) retry loop succeeds; `itOk` and
`calReadsOk` tell whether the unretried status and calibration reads
succeed at transport level; the remaining fields are the parsed device
responses. -/
structure LegacyEnv where
  speedOk : ℕ → Bool
  usbSpeed : ℕ
  itOk : Bool
  statusIt : ℕ
  spectrumOk : ℕ → Bool
  calReadsOk : Bool
  wlCal : ℕ → ℚ
  nlCount : ℤ
  nlCal : ℕ → ℚ
  stRaw : ℤ
  serial : String

/-- A fully initialized legacy session: cached USB speed, integration time,
and the calibration store. -/
structure USB2000Session where
  usbcomm : ℕ
  it : ℕ
  wl : Fin 4 → ℚ
  nl : Fin 8 → ℚ
  st : ℚ
  serial : String

/-- `USB2000.__init__` after `set_configuration`: run the 10-attempt
speed-detection loop (`Initialization USBCOM` on exhaustion), set the
integration time to 1000, run the 10-attempt first-acquisition loop
(`Initialization SPECTRUM` on exhaustion), then load the wavelength
calibration (addresses 1..4), the nonlinearity calibration (count at
address 14 must be 7, coefficients at addresses 6..13) and the saturation
scale `65535/stRaw`.  Returns the executed steps and either the error that
aborted construction or the finished session. -/
def USB2000.init (env : LegacyEnv) : List InitStep × Except OOError USB2000Session :=
  if (List.range 10).any env.speedOk = false then
    ([], .error .initializationUSBCOM)
  else if env.itOk = false then
    ([.speedDetected], .error .transportError)
  else if (List.range 10).any env.spectrumOk = false then
    ([.speedDetected, .itSet], .error .initializationSPECTRUM)
  else if env.calReadsOk = false then
    ([.speedDetected, .itSet, .spectrumAcquired], .error .transportError)
  else if env.nlCount ≠ 7 then
    ([.speedDetected, .itSet, .spectrumAcquired, .wlLoaded],
      .error .calibrationMismatch)
  else
    ([.speedDetected, .itSet, .spectrumAcquired, .wlLoaded, .nlLoaded,
        .stLoaded],
      .ok { usbcomm := env.usbSpeed, it := env.statusIt,
            wl := fun i => env.wlCal (1 + (i : ℕ)),
            nl := fun i => env.nlCal (6 + (i : ℕ)),
            st := 65535 / (env.stRaw : ℚ), serial := env.serial })

/-- A retry loop succeeds when some attempt among the first ten does. -/
theorem any_range_of_succeeds (ok : ℕ → Bool) (i : ℕ) (hi : i < 10)
    (h : ok i = true) : (List.range 10).any ok = true := by
  rw [List.any_eq_true]
  exact ⟨i, List.mem_range.mpr hi, h⟩

/-- A retry loop is exhausted when all ten attempts fail. -/
theorem any_range_false (ok : ℕ → Bool) (h : ∀ i, i < 10 → ok i = false) :
    (List.range 10).any ok = false := by
  rw [List.any_eq_false]
  intro x hx
  simp [h x (List.mem_range.mp hx)]

/-- C4: the legacy speed-detection and first-acquisition steps each retry up
to 10 attempts: nine transient failures followed by a success on the tenth
attempt let initialization complete (given the remaining steps succeed),
while ten failures abort construction with the corresponding
initialization-failure error and no session value. -/
theorem legacy_init_retry_budget (env : LegacyEnv)
    (hnl : env.nlCount = 7) (hit : env.itOk = true)
    (hcal : env.calReadsOk = true) :
    ((∀ i, i < 9 → env.speedOk i = false) → env.speedOk 9 = true →
      (List.range 10).any env.spectrumOk = true →
      ∃ s, (USB2000.init env).2 = .ok s) ∧
    ((∀ i, i < 10 → env.speedOk i = false) →
      USB2000.init env = ([], .error .initializationUSBCOM)) ∧
    ((List.range 10).any env.speedOk = true →
      (∀ i, i < 9 → env.spectrumOk i = false) → env.spectrumOk 9 = true →
      ∃ s, (USB2000.init env).2 = .ok s) ∧
    ((List.range 10).any env.speedOk = true →
      (∀ i, i < 10 → env.spectrumOk i = false) →
      USB2000.init env = ([.speedDetected, .itSet],
        .error .initializationSPECTRUM)) := by
  refine ⟨?_, ?_, ?_, ?_⟩
  · intro hf h9 hsp
    have h1 := any_range_of_succeeds env.speedOk 9 (by norm_num) h9
    exact ⟨{ usbcomm := env.usbSpeed, it := env.statusIt,
             wl := fun i => env.wlCal (1 + (i : ℕ)),
             nl := fun i => env.nlCal (6 + (i : ℕ)),
             st := 65535 / (env.stRaw : ℚ), serial := env.serial },
      by simp [USB2000.init, h1, hit, hcal, hsp, hnl]⟩
  · intro hf
    have h0 := any_range_false env.speedOk hf
    simp [USB2000.init, h0]
  · intro h1 hf h9
    have hsp := any_range_of_succeeds env.spectrumOk 9 (by norm_num) h9
    exact ⟨{ usbcomm := env.usbSpeed, it := env.statusIt,
             wl := fun i => env.wlCal (1 + (i : ℕ)),
             nl := fun i => env.nlCal (6 + (i : ℕ)),
             st := 65535 / (env.stRaw : ℚ), serial := env.serial },
      by simp [USB2000.init, h1, hit, hcal, hsp, hnl]⟩
  · intro h1 hf
    have h0 := any_range_false env.spectrumOk hf
    simp [USB2000.init, h1, hit, h0]

/-- A transport that fails the first nine attempts of both retried steps and
succeeds on the tenth, with an otherwise well-behaved device. -/
def retryEnv : LegacyEnv :=
  { speedOk := fun i => decide (i = 9), usbSpeed := 0x80, itOk := true,
    statusIt := 1000, spectrumOk := fun i => decide (i = 9),
    calReadsOk := true, wlCal := fun _ => 0, nlCount := 7, nlCal := fun _ => 0,
    stRaw := 1, serial := "" }

/-- C4 witness: with success only on the tenth attempt initialization
completes; with no successful attempt it aborts with the
initialization-failure error. -/
theorem legacy_init_retry_budget_witness :
    (∃ s, (USB2000.init retryEnv).2 = .ok s) ∧
    USB2000.init { retryEnv with speedOk := fun _ => false } =
      ([], .error .initializationUSBCOM) := by
  have h := legacy_init_retry_budget retryEnv rfl rfl rfl
  have h2 := legacy_init_retry_budget { retryEnv with speedOk := fun _ => false }
    rfl rfl rfl
  refine ⟨h.1 ?_ (by decide) (by decide), h2.2.1 (fun i hi => rfl)⟩
  intro i hi
  simp only [retryEnv, decide_eq_false_iff_not]
  omega

/-- Steps of the framed `STS.__init__` sequence, in execution order. -/
inductive STSStep where
  | hwRead : STSStep
  | swRead : STSStep
  | serialRead : STSStep
  | itSet : STSStep
  | avgSet : STSStep
  | spectrumAcquired : STSStep
  | wlLoaded : STSStep
  | nlLoaded : STSStep
  | slLoaded : STSStep
  | spectrumVerified : STSStep
deriving DecidableEq, Repr

/-- Device/transport behaviour driving one framed initialization.
`itAckRaises` (resp. `avgAckRaises`) tells whether the read of the
set-integration-time (resp. set-scan-averages) acknowledgment raises, which
is the only way `self._it` (resp. the requested averaging count) is
recorded; `firstSpectrumOk` is the unretried spectrum request after the
calibration-free setup; `spectrumOk i` drives the final 10-attempt retry
loop; the remaining fields are parsed device responses. -/
structure STSEnv where
  serial : String
  itAckRaises : Bool
  avgAckRaises : Bool
  firstSpectrumOk : Bool
  wlCal : ℕ → ℚ
  nlCount : ℤ
  nlCal : ℕ → ℚ
  slCount : ℤ
  slCal : ℕ → ℚ
  spectrumOk : ℕ → Bool

/-- A fully initialized framed session. -/
structure STSSession where
  it : ℕ
  scanAverages : ℕ
  wl : Fin 4 → ℚ
  nl : List ℚ
  sl : List ℚ
  serial : String

/-- `STS._get_nonlinearity_calibration`: query the coefficient count and
require it to equal exactly 8, then read that many coefficients. -/
def STS.get_nonlinearity_calibration (count : ℤ) (coeff : ℕ → ℚ) :
    Except OOError (List ℚ) :=
  if count ≠ 8 then .error .calibrationMismatch
  else .ok ((List.range 8).map (fun k => coeff k))

/-- `STS.__init__` after `set_configuration` and the buffer flush: read the
hardware version, software version and serial (these print and return `-1`
on bad frames, never raising), call `integration_time(10000)` and
`set_scan_averages(10)` (whose acknowledgment handlers swallow read
failures), then issue one unretried spectrum request - which reads
`self._it`, an attribute that only exists when the acknowledgment read
raised (otherwise Python raises `AttributeError`) - load the wavelength,
nonlinearity (count must be 8) and stray-light calibrations, and finally
run the 10-attempt spectrum retry loop (`Initialization SPECTRUM` on
exhaustion). -/
def STS.init (env : STSEnv) : List STSStep × Except OOError STSSession :=
  if env.itAckRaises = false then
    ([.hwRead, .swRead, .serialRead, .itSet, .avgSet], .error .attributeError)
  else if env.firstSpectrumOk = false then
    ([.hwRead, .swRead, .serialRead, .itSet, .avgSet], .error .transportError)
  else if env.nlCount ≠ 8 then
    ([.hwRead, .swRead, .serialRead, .itSet, .avgSet, .spectrumAcquired,
        .wlLoaded], .error .calibrationMismatch)
  else if (List.range 10).any env.spectrumOk = false then
    ([.hwRead, .swRead, .serialRead, .itSet, .avgSet, .spectrumAcquired,
        .wlLoaded, .nlLoaded, .slLoaded], .error .initializationSPECTRUM)
  else
    ([.hwRead, .swRead, .serialRead, .itSet, .avgSet, .spectrumAcquired,
        .wlLoaded, .nlLoaded, .slLoaded, .spectrumVerified],
      .ok { it := 10000, scanAverages := if env.avgAckRaises then 10 else 0,
            wl := fun i => env.wlCal (i : ℕ),
            nl := (List.range 8).map (fun k => env.nlCal k),
            sl := (List.range env.slCount.toNat).map (fun k => env.slCal k),
            serial := env.serial })

/-- A legacy device that reports a nonlinearity coefficient count of 5 on
an otherwise perfect transport. -/
def mismatchEnv : LegacyEnv :=
  { speedOk := fun _ => true, usbSpeed := 0x80, itOk := true, statusIt := 1000,
    spectrumOk := fun _ => true, calReadsOk := true, wlCal := fun _ => 0,
    nlCount := 5, nlCal := fun _ => 0, stRaw := 1, serial := "" }

/-- C3 counterexample: with a reported nonlinearity count of 5, construction
does fail with the calibration-mismatch error and yields no session - but
not before any spectrum is acquired: the executed-step trace shows the
first-acquisition step already completed before the calibration check
runs (the nonlinearity calibration is only loaded after the
initialization-time spectrum acquisition). -/
theorem calibration_mismatch_after_spectrum_counterexample :
    (USB2000.init mismatchEnv).2 = .error .calibrationMismatch ∧
    InitStep.spectrumAcquired ∈ (USB2000.init mismatchEnv).1 := by
  refine ⟨rfl, by decide⟩

/-- C3 amended: a nonlinearity coefficient count other than 7 (legacy) or 8
(framed) makes session construction fail with the calibration-mismatch
error, producing no usable session; the failure occurs after the
initialization sequence has already acquired its first spectrum, not
before. -/
theorem calibration_mismatch_aborts_init (env : LegacyEnv) (envS : STSEnv)
    (h1 : (List.range 10).any env.speedOk = true) (hit : env.itOk = true)
    (h2 : (List.range 10).any env.spectrumOk = true)
    (hcal : env.calReadsOk = true) (h3 : env.nlCount ≠ 7)
    (h4 : envS.itAckRaises = true) (h5 : envS.firstSpectrumOk = true)
    (h6 : envS.nlCount ≠ 8) :
    (USB2000.init env).2 = .error .calibrationMismatch ∧
    (STS.init envS).2 = .error .calibrationMismatch := by
  constructor
  · simp [USB2000.init, h1, hit, h2, hcal, h3]
  · simp [STS.init, h4, h5, h6]

/-- A framed device that reports a nonlinearity coefficient count of 5 on
an otherwise well-behaved setup (the integration-time acknowledgment read
raises, so `self._it` exists). -/
def mismatchEnvS : STSEnv :=
  { serial := "", itAckRaises := true, avgAckRaises := true,
    firstSpectrumOk := true, wlCal := fun _ => 0, nlCount := 5,
    nlCal := fun _ => 0, slCount := 0, slCal := fun _ => 0,
    spectrumOk := fun _ => true }

/-- C3 amended witness: both protocols abort with the calibration-mismatch
error on a reported count of 5. -/
theorem calibration_mismatch_aborts_init_witness :
    (USB2000.init mismatchEnv).2 = .error .calibrationMismatch ∧
    (STS.init mismatchEnvS).2 = .error .calibrationMismatch :=
  calibration_mismatch_aborts_init mismatchEnv mismatchEnvS (by decide) rfl
    (by decide) rfl (by decide) rfl rfl (by decide)
